import Mathlib

/-!
Verification of the flynn controller front door (`controller/controller.go`):
the protocol multiplexer (`muxHandler`), the shared error translator
(`respondWithError`), app/route lookup helpers, the CA-certificate handler,
and the shutdown teardown sequence registered via `shutdown.BeforeExit`.

Stateful HTTP handling is embedded as pure functions producing a trace of the
observable per-request steps, so that claims of the form "no authorization
call is made" or "the mutex is not acquired" become membership statements
over the trace.
-/

namespace Flynn

/-- The identity returned by `authorizer.AuthorizeRequest` (`auth.ID`, `auth.User`). -/
structure AuthIdentity where
  ID : String
  User : String
  deriving DecidableEq

/-- The parts of an inbound `*http.Request` that `muxHandler` inspects:
`r.URL.Path`, the username/password from `r.BasicAuth()` (the `ok` flag is
discarded by the source, and a missing header yields an empty password), and
whether `grpcWeb.IsGrpcWebRequest(r)` holds for the request's framing. -/
structure Request where
  path : String
  basicAuthUser : String
  basicAuthPassword : String
  isGrpcWeb : Bool
  deriving DecidableEq

/-- One observable step taken by `muxHandler` on a request.
`respond code body` covers `w.WriteHeader(code)` (empty body) and helper
responses carrying a message body. -/
inductive MuxStep where
  | respond (status : Nat) (body : String)
  | serveGrpcWeb
  | callAuthorize
  | setHeader (key value : String)
  | dispatchMain
  deriving DecidableEq

/-- `ErrShutdown = errors.New("controller: shutting down")`. -/
def errShutdownMsg : String := "controller: shutting down"

/-- Modelled from the spec: `httphelper.ServiceUnavailableError` (package
`httphelper` is not under src) writes a service-unavailable (503) response
carrying the given message. -/
def serviceUnavailableError (msg : String) : MuxStep := .respond 503 msg

/-- Shallow embedding of `muxHandler` (controller.go:307-342).  `draining`
is `shutdown.IsActive()`; `authorize` is `authorizer.AuthorizeRequest`,
with `none` standing for a non-nil error.  The returned list is the ordered
trace of observable steps. -/
def muxHandler (draining : Bool) (authorize : Request → Option AuthIdentity)
    (r : Request) : List MuxStep :=
  if draining then
    [serviceUnavailableError errShutdownMsg]
  else if r.path = "/ping" then
    [.respond 200 ""]
  else if r.isGrpcWeb then
    [.serveGrpcWeb]
  else if r.basicAuthPassword = "" ∧ r.path = "/ca-cert" then
    [.dispatchMain]
  else
    .callAuthorize ::
      match authorize r with
      | none => [.respond 401 ""]
      | some auth =>
          (if auth.ID ≠ "" then
            [.setHeader "Flynn-Auth-ID" auth.ID, .setHeader "Flynn-Auth-User" auth.User]
          else []) ++ [.dispatchMain]

/-- Whether a mux trace stamps any request header. -/
def stampsAuthHeaders (t : List MuxStep) : Bool :=
  t.any fun s => match s with
    | .setHeader _ _ => true
    | _ => false

/-- Spec-following definition, for comparison only: the spec calls an
identity anonymous exactly when both of its fields are empty. -/
def anonymousIdentitySpec (a : AuthIdentity) : Bool :=
  a.ID = "" && a.User = ""

/-- An HTTP response produced by a handler. -/
structure HttpResponse where
  status : Nat
  contentType : Option String
  body : String
  deriving DecidableEq

/-- Shallow embedding of `GetCACert` (controller.go:421-424): sets the
content type and writes `c.caCert`; `w.Write` without a prior
`WriteHeader` implies status 200. -/
def GetCACert (caCert : String) : HttpResponse :=
  { status := 200
    contentType := some "application/x-x509-ca-cert"
    body := caCert }

/-- The error taxonomy seen by `respondWithError`:
`ct.ValidationError`, the `ErrNotFound` sentinel, or any other error. -/
inductive CtrlError where
  | validation (field message : String)
  | notFound
  | other (msg : String)
  deriving DecidableEq

/-- The response shapes the translator can produce.  `validationResponse`
stands for `httphelper.ValidationError(w, field, message)` (a structured
payload built from the two fields), `statusOnly code` for
`w.WriteHeader(code)` with no body, and `genericError` for
`httphelper.Error(w, err)` (the generic opaque translation); the
`httphelper` renderings themselves are outside src. -/
inductive ErrorResponse where
  | validationResponse (field message : String)
  | statusOnly (code : Nat)
  | genericError (msg : String)
  deriving DecidableEq

/-- Shallow embedding of `respondWithError` (controller.go:153-164): a
`ValidationError` is rendered structurally, `ErrNotFound` becomes an
empty-body 404, anything else goes through the generic translation. -/
def respondWithError : CtrlError → ErrorResponse
  | .validation f m => .validationResponse f m
  | .notFound => .statusOnly 404
  | .other m => .genericError m

/-- The app resource as this core sees it: an opaque identifier
(`ct.App` lives outside src; only its `ID` is read here). -/
structure App where
  ID : String
  deriving DecidableEq

/-- Shallow embedding of `appLookup` (controller.go:392-403): look the app
up in the repository; on error respond via the shared translator and stop,
otherwise run the wrapped handler on the resolved app. -/
def appLookup (repoGet : String → Except CtrlError App)
    (handler : App → Except ErrorResponse String) (appsId : String) :
    Except ErrorResponse String :=
  match repoGet appsId with
  | .error e => .error (respondWithError e)
  | .ok app => handler app

/-- Embedding of `routeParentRef` (controller.go:405-407).  The constant
`ct.RouteParentRefPrefix` lives outside src; its concrete value is
immaterial to the theorems below. -/
def routeParentRef (appID : String) : String :=
  "controller/apps/" ++ appID

/-- A route as this core sees it: only `ParentRef` is inspected
(`router.Route` lives outside src). -/
structure RouteRec where
  parentRef : String
  deriving DecidableEq

/-- Outcome of `c.routeRepo.Get`: a route, the repository's own
`data.ErrRouteNotFound`, or another error. -/
inductive RouteRepoResult where
  | found (route : RouteRec)
  | routeNotFound
  | otherErr (msg : String)
  deriving DecidableEq

/-- Shallow embedding of `getRoute` (controller.go:409-419): the
repository's not-found error, and a found route whose `ParentRef` differs
from the resolved app's route-parent reference, are both replaced by the
`ErrNotFound` sentinel; other repository errors pass through unchanged. -/
def getRoute (repoRes : RouteRepoResult) (appID : String) :
    Except CtrlError RouteRec :=
  match repoRes with
  | .routeNotFound => .error .notFound
  | .found route =>
      if route.parentRef ≠ routeParentRef appID then .error .notFound
      else .ok route
  | .otherErr m => .error (.other m)

/-- The teardown actions registered with `shutdown.BeforeExit` by `main`
and `appHandler`.  `httpListenerClose` is included so its absence from the
registered sequence is statable: no close is ever registered for the HTTP
listener (`http.ListenAndServe` owns it). -/
inductive TeardownAction where
  | dbClose
  | doneChClose
  | httpServiceClose
  | grpcListenerClose
  | grpcServiceClose
  | apiShutdown
  | httpListenerClose
  deriving DecidableEq

/-- The `shutdown.BeforeExit` registrations in program order:
`db.Close` (controller.go:80), `close(doneCh)` (:88), `httpService.Close`
(:103), `grpcListener.Close` (:111), `grpcService.Close` (:119), and
`api.Shutdown` (:211, registered inside `appHandler`). -/
def beforeExitRegistrations : List TeardownAction :=
  [.dbClose, .doneChClose, .httpServiceClose, .grpcListenerClose,
   .grpcServiceClose, .apiShutdown]

/-- Modelled from the spec: the `shutdown` package is not under src; the
spec describes the teardown as ad hoc deferred calls, so on the transition
to draining the registered actions run in reverse registration order. -/
def teardownSequence : List TeardownAction :=
  beforeExitRegistrations.reverse

/-- Synchronization-relevant events around the event-listener singleton. -/
inductive SyncEvent where
  | lockEventListenerMtx
  | unlockEventListenerMtx
  | readEventListenerPtr
  | writeEventListenerPtr
  | closeEventListener
  deriving DecidableEq

/-- Trace of `controllerAPI.Shutdown` (controller.go:426-429): it reads
`c.eventListener` and, when non-nil, calls `CloseWithError(ErrShutdown)`;
no mutex operation appears in the method body. -/
def shutdownMethodTrace (listenerPresent : Bool) : List SyncEvent :=
  .readEventListenerPtr :: (if listenerPresent then [.closeEventListener] else [])

/-- Modelled from the spec: the singleton check-and-create step lives in
events code not under src; per the spec it holds the mutex across the
check and, when absent, the create. -/
def checkAndCreateTrace (alreadyPresent : Bool) : List SyncEvent :=
  [.lockEventListenerMtx, .readEventListenerPtr] ++
    (if alreadyPresent then [] else [.writeEventListenerPtr]) ++
    [.unlockEventListenerMtx]

/-- C1: while draining, every request — whatever its path, credentials or
framing, including `/ping` — receives only the fixed 503 shutdown
response; no authorization call, no grpc-web forwarding and no dispatch
occur. -/
theorem C1_draining_503_only (authorize : Request → Option AuthIdentity)
    (r : Request) :
    muxHandler true authorize r = [serviceUnavailableError errShutdownMsg] ∧
    serviceUnavailableError errShutdownMsg = .respond 503 "controller: shutting down" ∧
    MuxStep.callAuthorize ∉ muxHandler true authorize r ∧
    MuxStep.dispatchMain ∉ muxHandler true authorize r ∧
    MuxStep.serveGrpcWeb ∉ muxHandler true authorize r ∧
    muxHandler true authorize
      { path := "/ping", basicAuthUser := "", basicAuthPassword := "",
        isGrpcWeb := false } = [serviceUnavailableError errShutdownMsg] := by
  refine ⟨rfl, rfl, ?_, ?_, ?_, rfl⟩ <;> simp [muxHandler, serviceUnavailableError]

/-- C2: a request to `/ca-cert` whose parsed basic-auth password is empty
(no credential at all, or a username with an empty password) is forwarded
straight to the REST dispatch table with no authorization call, and
`GetCACert` answers with exactly the configured certificate bytes. -/
theorem C2_cacert_bypass (authorize : Request → Option AuthIdentity)
    (r : Request) (caCert : String)
    (hp : r.path = "/ca-cert") (hpw : r.basicAuthPassword = "")
    (hg : r.isGrpcWeb = false) :
    muxHandler false authorize r = [.dispatchMain] ∧
    MuxStep.callAuthorize ∉ muxHandler false authorize r ∧
    GetCACert caCert =
      { status := 200, contentType := some "application/x-x509-ca-cert",
        body := caCert } := by
  refine ⟨?_, ?_, rfl⟩ <;> simp [muxHandler, hp, hpw, hg]

/-- C2 witness: a concrete request carrying a username but an empty
password fetches the dispatch-only trace. -/
theorem C2_cacert_bypass_witness :
    muxHandler false (fun _ => none)
      { path := "/ca-cert", basicAuthUser := "someone",
        basicAuthPassword := "", isGrpcWeb := false } = [.dispatchMain] :=
  (C2_cacert_bypass (fun _ => none)
    { path := "/ca-cert", basicAuthUser := "someone",
      basicAuthPassword := "", isGrpcWeb := false }
    "certdata" rfl rfl rfl).1

/-- C3: when the authorizer rejects (and no earlier branch applies), the
response is a 401 with empty body, no identity header is stamped, and the
dispatch table is never invoked. -/
theorem C3_auth_failure_401 (authorize : Request → Option AuthIdentity)
    (r : Request)
    (hping : r.path ≠ "/ping") (hg : r.isGrpcWeb = false)
    (hcc : ¬(r.basicAuthPassword = "" ∧ r.path = "/ca-cert"))
    (hauth : authorize r = none) :
    muxHandler false authorize r = [.callAuthorize, .respond 401 ""] ∧
    (∀ k v, MuxStep.setHeader k v ∉ muxHandler false authorize r) ∧
    MuxStep.dispatchMain ∉ muxHandler false authorize r := by
  refine ⟨?_, ?_, ?_⟩ <;> simp [muxHandler, hping, hg, hcc, hauth]

/-- C3 witness: a concrete rejected request receives the bare 401 trace. -/
theorem C3_auth_failure_401_witness :
    muxHandler false (fun _ => none)
      { path := "/apps", basicAuthUser := "", basicAuthPassword := "secret",
        isGrpcWeb := false } = [.callAuthorize, .respond 401 ""] :=
  (C3_auth_failure_401 (fun _ => none)
    { path := "/apps", basicAuthUser := "", basicAuthPassword := "secret",
      isGrpcWeb := false }
    (by decide) rfl (by decide) rfl).1

/-- C4 counterexample: an identity with an empty id but a non-empty user is
non-anonymous by the spec's definition (anonymous = both fields empty), yet
the code stamps no headers, because it inspects only the id field — so
"headers are stamped iff the identity is non-anonymous" is false. -/
theorem C4_counterexample :
    ¬(stampsAuthHeaders (muxHandler false (fun _ => some { ID := "", User := "alice" })
        { path := "/apps", basicAuthUser := "", basicAuthPassword := "secret",
          isGrpcWeb := false })
      = !(anonymousIdentitySpec { ID := "", User := "alice" })) := by
  decide

/-- C4 (amended): on authorizer success the multiplexer dispatches to the
REST table, stamping the two trace headers exactly when the returned
identity's id field is non-empty. -/
theorem C4_headers_iff_id_nonempty (authorize : Request → Option AuthIdentity)
    (r : Request) (auth : AuthIdentity)
    (hping : r.path ≠ "/ping") (hg : r.isGrpcWeb = false)
    (hcc : ¬(r.basicAuthPassword = "" ∧ r.path = "/ca-cert"))
    (hauth : authorize r = some auth) :
    muxHandler false authorize r =
      .callAuthorize ::
        (if auth.ID ≠ "" then
          [.setHeader "Flynn-Auth-ID" auth.ID, .setHeader "Flynn-Auth-User" auth.User]
        else []) ++ [.dispatchMain] ∧
    (stampsAuthHeaders (muxHandler false authorize r) = true ↔ auth.ID ≠ "") := by
  have htrace : muxHandler false authorize r =
      .callAuthorize ::
        (if auth.ID ≠ "" then
          [.setHeader "Flynn-Auth-ID" auth.ID, .setHeader "Flynn-Auth-User" auth.User]
        else []) ++ [.dispatchMain] := by
    simp [muxHandler, hping, hg, hcc, hauth]
  refine ⟨htrace, ?_⟩
  rw [htrace]
  by_cases h : auth.ID = "" <;> simp [stampsAuthHeaders, h]

/-- C4 witness: a concrete identity with non-empty id gets both headers. -/
theorem C4_headers_iff_id_nonempty_witness :
    muxHandler false (fun _ => some { ID := "id1", User := "bob" })
      { path := "/apps", basicAuthUser := "", basicAuthPassword := "secret",
        isGrpcWeb := false } =
      [.callAuthorize, .setHeader "Flynn-Auth-ID" "id1",
       .setHeader "Flynn-Auth-User" "bob", .dispatchMain] :=
  (C4_headers_iff_id_nonempty (fun _ => some { ID := "id1", User := "bob" })
    { path := "/apps", basicAuthUser := "", basicAuthPassword := "secret",
      isGrpcWeb := false }
    { ID := "id1", User := "bob" }
    (by decide) rfl (by decide) rfl).1

/-- C5: the shared translator maps a ValidationError to the structured
field/message response, the not-found sentinel to an empty-body 404, and
every other error to the generic translation; `appLookup` routes a
repository not-found straight into the empty-body 404 (the
`GET /apps/unknown-id` scenario). -/
theorem C5_error_translator :
    (∀ f m, respondWithError (.validation f m) = .validationResponse f m) ∧
    respondWithError .notFound = .statusOnly 404 ∧
    (∀ m, respondWithError (.other m) = .genericError m) ∧
    (∀ (repoGet : String → Except CtrlError App)
        (handler : App → Except ErrorResponse String) (appsId : String),
      repoGet appsId = .error CtrlError.notFound →
      appLookup repoGet handler appsId = .error (.statusOnly 404)) := by
  refine ⟨fun f m => rfl, rfl, fun m => rfl, ?_⟩
  intro repoGet handler appsId h
  simp [appLookup, h, respondWithError]

/-- C5 witness: a repository answering not-found for `unknown-id` yields
the empty-body 404 through `appLookup`. -/
theorem C5_error_translator_witness :
    appLookup (fun _ => .error CtrlError.notFound) (fun _ => .ok "")
      "unknown-id" = .error (.statusOnly 404) :=
  C5_error_translator.2.2.2 (fun _ => .error CtrlError.notFound)
    (fun _ => .ok "") "unknown-id" rfl

/-- C6: a grpc-web request (not draining, not `/ping`) is handed verbatim
to the RPC entry point: no authorization call, no ca-cert bypass dispatch,
no REST dispatch. -/
theorem C6_grpcweb_verbatim (authorize : Request → Option AuthIdentity)
    (r : Request) (hping : r.path ≠ "/ping") (hg : r.isGrpcWeb = true) :
    muxHandler false authorize r = [.serveGrpcWeb] ∧
    MuxStep.callAuthorize ∉ muxHandler false authorize r ∧
    MuxStep.dispatchMain ∉ muxHandler false authorize r := by
  refine ⟨?_, ?_, ?_⟩ <;> simp [muxHandler, hping, hg]

/-- C6 witness: a concrete grpc-web request is served by the RPC bridge
alone. -/
theorem C6_grpcweb_verbatim_witness :
    muxHandler false (fun _ => none)
      { path := "/apps", basicAuthUser := "", basicAuthPassword := "",
        isGrpcWeb := true } = [.serveGrpcWeb] :=
  (C6_grpcweb_verbatim (fun _ => none)
    { path := "/apps", basicAuthUser := "", basicAuthPassword := "",
      isGrpcWeb := true }
    (by decide) rfl).1

/-- C7: `/ping` while not draining answers 200 regardless of credentials
or framing, with no authorization call and no dispatch. -/
theorem C7_ping_200 (authorize : Request → Option AuthIdentity)
    (u p : String) (g : Bool) :
    muxHandler false authorize
      { path := "/ping", basicAuthUser := u, basicAuthPassword := p,
        isGrpcWeb := g } = [.respond 200 ""] ∧
    MuxStep.callAuthorize ∉ muxHandler false authorize
      { path := "/ping", basicAuthUser := u, basicAuthPassword := p,
        isGrpcWeb := g } ∧
    MuxStep.dispatchMain ∉ muxHandler false authorize
      { path := "/ping", basicAuthUser := u, basicAuthPassword := p,
        isGrpcWeb := g } := by
  refine ⟨?_, ?_, ?_⟩ <;> simp [muxHandler]

/-- C8 counterexample: the claimed order — discovery deregistrations, then
event-dispatcher close, then pool close, then listener close — does not
hold of the registered teardown sequence. -/
theorem C8_counterexample :
    ¬(teardownSequence.indexOf TeardownAction.httpServiceClose <
        teardownSequence.indexOf TeardownAction.apiShutdown ∧
      teardownSequence.indexOf TeardownAction.grpcServiceClose <
        teardownSequence.indexOf TeardownAction.apiShutdown ∧
      teardownSequence.indexOf TeardownAction.apiShutdown <
        teardownSequence.indexOf TeardownAction.dbClose ∧
      teardownSequence.indexOf TeardownAction.dbClose <
        teardownSequence.indexOf TeardownAction.grpcListenerClose) := by
  decide

/-- C8 (amended): teardown runs the registered actions in reverse
registration order — event-dispatcher close first, then grpc discovery
deregistration, grpc listener close, http discovery deregistration,
done-channel close, and pool close last — and no action stops the HTTP
listener. -/
theorem C8_teardown_order :
    teardownSequence =
      [.apiShutdown, .grpcServiceClose, .grpcListenerClose,
       .httpServiceClose, .doneChClose, .dbClose] ∧
    TeardownAction.httpListenerClose ∉ teardownSequence := by
  exact ⟨rfl, by decide⟩

/-- C9 counterexample: the close transition (`controllerAPI.Shutdown`)
touches the singleton pointer with no mutex acquisition anywhere in its
trace, so "the mutex is held around the close transition" is false. -/
theorem C9_counterexample :
    ¬(SyncEvent.lockEventListenerMtx ∈ shutdownMethodTrace true) := by
  decide

/-- C9 (amended): the check-and-create step is fully mutex-guarded, but
the close transition in `Shutdown` reads and closes the singleton pointer
without ever acquiring the mutex. -/
theorem C9_shutdown_close_unguarded (b : Bool) :
    (checkAndCreateTrace b).head? = some .lockEventListenerMtx ∧
    (checkAndCreateTrace b).getLast? = some .unlockEventListenerMtx ∧
    SyncEvent.readEventListenerPtr ∈ checkAndCreateTrace b ∧
    SyncEvent.lockEventListenerMtx ∉ shutdownMethodTrace b ∧
    shutdownMethodTrace true = [.readEventListenerPtr, .closeEventListener] := by
  cases b <;> decide

/-- C10: a route the repository does return, but whose parent reference
differs from the resolved app's route-parent reference, is replaced by the
not-found sentinel — indistinguishable from a route the repository does
not know — and the shared translator renders that sentinel as an
empty-body 404. -/
theorem C10_foreign_route_404 (route : RouteRec) (appID : String)
    (h : route.parentRef ≠ routeParentRef appID) :
    getRoute (.found route) appID = .error .notFound ∧
    getRoute (.found route) appID = getRoute .routeNotFound appID ∧
    respondWithError CtrlError.notFound = .statusOnly 404 := by
  refine ⟨?_, ?_, rfl⟩ <;> simp [getRoute, h]

/-- C10 witness: a concrete route owned by another app maps to the
not-found sentinel. -/
theorem C10_foreign_route_404_witness :
    getRoute (.found { parentRef := "controller/apps/other" }) "app1" =
      .error .notFound :=
  (C10_foreign_route_404 { parentRef := "controller/apps/other" } "app1"
    (by decide)).1

end Flynn
